import Mathlib

/-!
Verification development for the AgriMitra chat client session engine
(`frontend/components/chat-screen.tsx`).

The React component is shallowly embedded as pure functions over an
explicit `ChatState` record.  Each `useState` hook becomes a field of
`ChatState`; the `useRef`/closure variables of the speech-recognition
`useEffect` (`finalTranscript`, `silenceTimeout`) become fields as well,
since they persist across callback invocations.  `Date.now()` is an
explicit `now : Nat` parameter (milliseconds).  The asynchronous
`fetch` inside `sendMessage` is split into a synchronous first phase
(everything before `await fetch`) and a resolution phase (the
`response.ok` / `catch` handler); the values the JavaScript closure
captures across the `await` are recorded in a `SendCapture` record.
Platform effects that only touch the browser (toasts, scrolling,
`console.log`, audio levels) are dropped; resource acquisition is
tracked by the `captureHeld` flag plus a ghost counter `acquireCount`
that counts how many times `getUserMedia`/`AudioContext` acquisition
has been performed.
-/

/-- JavaScript `String.prototype.startsWith`, modelled character-wise
(rather than through `String.startsWith`, whose byte-position loops do
not reduce in the kernel). -/
def strStartsWith (s pre : String) : Bool :=
  pre.data.isPrefixOf s.data

/-- JavaScript `String.prototype.slice(0, n)`, modelled character-wise
(the source truncates titles with `slice(0, 50)`). -/
def strTake (s : String) (n : Nat) : String :=
  ⟨s.data.take n⟩

/-- JavaScript `String.prototype.trim`: drop whitespace from both
ends, modelled character-wise for kernel computability. -/
def strTrim (s : String) : String :=
  ⟨((s.data.dropWhile (fun c => c.isWhitespace)).reverse.dropWhile
      (fun c => c.isWhitespace)).reverse⟩

/-- Mirror of the `Message` interface (chat-screen.tsx lines 42-50).
`timestamp : Date` becomes milliseconds since epoch as a `Nat`. -/
structure Message where
  id : String
  text : String
  isUser : Bool
  timestamp : Nat
  youtube : Option (List String)
  sources : Option String
  image : Option String
deriving DecidableEq, Repr

/-- Mirror of the `Conversation` interface (lines 52-57). -/
structure Conversation where
  id : String
  title : String
  messages : List Message
  createdAt : Nat
deriving DecidableEq, Repr

/-- One recognition result from a `SpeechRecognition` result event:
`event.results[i].isFinal` and `event.results[i][0].transcript`.  An
event is modelled as the list of results from `event.resultIndex` to
`event.results.length - 1`, in order. -/
structure SpeechSeg where
  isFinal : Bool
  transcript : String
deriving DecidableEq, Repr

/-- The component state of `ChatScreen` (lines 158-178): every
`useState` hook, the speech-recognition closure variables, and the
capture-resource refs (`mediaStreamRef`/`audioContextRef` abstracted to
`captureHeld`, with `acquireCount` as a ghost acquisition counter). -/
structure ChatState where
  message : String
  conversations : List Conversation
  currentConversation : Option Conversation
  isListening : Bool
  isLoading : Bool
  showTextInput : Bool
  selectedImage : Option String
  supported : Bool
  recognitionActive : Bool
  captureHeld : Bool
  acquireCount : Nat
  finalTranscript : String
  silenceDeadline : Option Nat
deriving DecidableEq, Repr

/-- Successful `/api/chat` response body (lines 516-523): `response`,
optional `youtube` that may be a single string or a list, optional
`sources`. -/
structure ChatResponse where
  response : String
  youtube : Option (String ⊕ List String)
  sources : Option String
deriving DecidableEq, Repr

/-- `data.youtube ? (Array.isArray(data.youtube) ? data.youtube : [data.youtube]) : undefined`
(line 522). -/
def normalizeYoutube : Option (String ⊕ List String) → Option (List String)
  | none => none
  | some (Sum.inl s) => some [s]
  | some (Sum.inr l) => some l

/-- Attachment failure taxonomy of `handleImageSelect`: the three
distinct destructive toasts of lines 198-227. -/
inductive AttachError where
  | InvalidType
  | TooLarge
  | EncodingFailed
deriving DecidableEq, Repr

/-- The parts of a browser `File` that `handleImageSelect` reads. -/
structure JsFile where
  type : String
  size : Nat
deriving DecidableEq, Repr

/-- `handleImageSelect` (lines 193-228).  The `fileToDataURL` promise
outcome is passed in as `enc`; the function returns the new state and
the error surfaced by a toast, if any. -/
def handleImageSelect (s : ChatState) (file : Option JsFile)
    (enc : Except Unit String) : ChatState × Option AttachError :=
  match file with
  | none => (s, none)
  | some f =>
    if ¬ strStartsWith f.type "image/" then (s, some AttachError.InvalidType)
    else if f.size > 5 * 1024 * 1024 then (s, some AttachError.TooLarge)
    else
      match enc with
      | Except.ok dataURL =>
          ({ s with selectedImage := some dataURL, showTextInput := true }, none)
      | Except.error _ => (s, some AttachError.EncodingFailed)

/-- `recognitionRef.current.onresult` (lines 278-300): append the final
results of the event to the accumulated `finalTranscript`, concatenate
the interim results, display `interimTranscript || finalTranscript`
(trimmed) when non-empty, and re-arm the 5000 ms silence timeout. -/
def onresult (s : ChatState) (segs : List SpeechSeg) (now : Nat) : ChatState :=
  let finalT := s.finalTranscript ++
    String.join ((segs.filter (fun r => r.isFinal)).map (fun r => r.transcript))
  let interimT :=
    String.join ((segs.filter (fun r => !r.isFinal)).map (fun r => r.transcript))
  let currentText := if interimT ≠ "" then interimT else finalT
  { s with
    finalTranscript := finalT
    silenceDeadline := some (now + 5000)
    message := if currentText ≠ "" then strTrim currentText else s.message }

/-- `recognitionRef.current.onend` (lines 316-321): reset the
transcript accumulator, leave Listening, stop the visualization.  The
silence timeout is not touched. -/
def onend (s : ChatState) : ChatState :=
  { s with finalTranscript := "", isListening := false, captureHeld := false }

/-- `startListening` (lines 428-457), happy path for `start()` and
`getUserMedia`: unsupported browsers only toast; otherwise the body
runs only under the `if (!isListening)` guard, clearing the composer,
starting recognition and acquiring the audio-visualization resources. -/
def startListening (s : ChatState) : ChatState :=
  if ¬ s.supported then s
  else if ¬ s.isListening then
    { s with
      message := ""
      isListening := true
      recognitionActive := true
      captureHeld := true
      acquireCount := s.acquireCount + 1
      showTextInput := true }
  else s

/-- `stopListening` (lines 459-465): guarded by
`recognitionRef.current && isListening`; stops recognition, leaves
Listening and releases the capture resources.  The silence timeout and
`finalTranscript` are not touched. -/
def stopListening (s : ChatState) : ChatState :=
  if s.supported ∧ s.isListening then
    { s with recognitionActive := false, isListening := false, captureHeld := false }
  else s

/-- `const textToSend = messageText || message` (line 468): an absent
or empty `messageText` argument falls back to the `message` state. -/
def textToSendOf (mt : Option String) (s : ChatState) : String :=
  match mt with
  | some t => if t = "" then s.message else t
  | none => s.message

/-- The conversation title expression of line 483:
`textToSend.slice(0, 50) + (textToSend.length > 50 ? "..." : "") || "Image message"`. -/
def mkTitle (text : String) : String :=
  let base := strTake text 50 ++ (if text.length > 50 then "..." else "")
  if base = "" then "Image message" else base

/-- The optimistic user `Message` of lines 471-477. -/
def mkUserMessage (text : String) (image : Option String) (now : Nat) : Message :=
  { id := toString now
    text := text
    isUser := true
    timestamp := now
    youtube := none
    sources := none
    image := image }

/-- The lazily created conversation of lines 481-486. -/
def freshConv (text : String) (now : Nat) : Conversation :=
  { id := toString now
    title := mkTitle text
    messages := []
    createdAt := now }

/-- The `conversation` local of lines 479-488: the current conversation
or, when none is selected, a fresh one. -/
def origConvOf (s : ChatState) (tts : String) (now : Nat) : Conversation :=
  match s.currentConversation with
  | some c => c
  | none => freshConv tts now

/-- The values the `sendMessage` closure still holds across
`await fetch`: the text, the id of the target conversation, the
optimistically updated conversation, and the `conversations` state as
captured at call time (React closures see the render-time value). -/
structure SendCapture where
  textToSend : String
  convId : String
  updatedConversation : Conversation
  capturedConversations : List Conversation
deriving DecidableEq, Repr

/-- `sendMessage` up to `await fetch` (lines 467-499): guard on
`!textToSend.trim() && !selectedImage`, build the optimistic user
message, lazily create the conversation, set it (with the user message
appended) as current, clear the composer and enter loading.  Returns
the new state and, when a request was actually issued, the closure
capture for its resolution. -/
def sendPhase1 (s : ChatState) (mt : Option String) (now : Nat) :
    ChatState × Option SendCapture :=
  let tts := textToSendOf mt s
  if strTrim tts = "" ∧ s.selectedImage = none then (s, none)
  else
    let conversation := origConvOf s tts now
    let userMessage := mkUserMessage tts s.selectedImage now
    let updated := { conversation with messages := conversation.messages ++ [userMessage] }
    ({ s with
        currentConversation := some updated
        message := ""
        selectedImage := none
        showTextInput := false
        isLoading := true },
     some { textToSend := tts
            convId := conversation.id
            updatedConversation := updated
            capturedConversations := s.conversations })

/-- The assistant `Message` of lines 517-524. -/
def mkBotMessage (data : ChatResponse) (now : Nat) : Message :=
  { id := toString (now + 1)
    text := data.response
    isUser := false
    timestamp := now
    youtube := normalizeYoutube data.youtube
    sources := data.sources
    image := none }

/-- `sendMessage` after `await fetch` (lines 515-547).  On success the
assistant message is appended to the captured conversation snapshot,
which unconditionally becomes the current conversation, and the
captured `conversations` list is re-filtered and `unshift`-ed.  On
failure (non-ok status or network fault) only a toast fires.  Either
way `isLoading` is cleared in `finally`. -/
def resolveSend (s : ChatState) (cap : SendCapture)
    (result : Except Unit ChatResponse) (now : Nat) : ChatState :=
  match result with
  | Except.ok data =>
      let botMessage := mkBotMessage data now
      let finalConversation :=
        { cap.updatedConversation with
          messages := cap.updatedConversation.messages ++ [botMessage] }
      { s with
        currentConversation := some finalConversation
        conversations :=
          finalConversation ::
            cap.capturedConversations.filter (fun c => decide (c.id ≠ cap.convId))
        isLoading := false }
  | Except.error _ => { s with isLoading := false }

/-- A whole successful send: phase 1 immediately followed by a
successful resolution (no interleaved user action). -/
def fullSendOk (s : ChatState) (mt : Option String) (now resolveAt : Nat)
    (data : ChatResponse) : ChatState :=
  match sendPhase1 s mt now with
  | (s1, some cap) => resolveSend s1 cap (Except.ok data) resolveAt
  | (s1, none) => s1

/-- A whole failed send: phase 1 immediately followed by a transport
failure. -/
def fullSendFail (s : ChatState) (mt : Option String) (now : Nat) : ChatState :=
  match sendPhase1 s mt now with
  | (s1, some cap) => resolveSend s1 cap (Except.error ()) now
  | (s1, none) => s1

/-- `startNewChat` (lines 550-560). -/
def startNewChat (s : ChatState) : ChatState :=
  { s with
    currentConversation := none
    message := ""
    selectedImage := none
    showTextInput := false
    isListening := false
    captureHeld := false
    recognitionActive := false }

/-- `selectConversation` (lines 562-571).  Note that neither the
`conversations` list nor `message` nor the silence timeout is touched. -/
def selectConversation (s : ChatState) (conversation : Conversation) : ChatState :=
  { s with
    currentConversation := some conversation
    selectedImage := none
    showTextInput := false
    isListening := false
    captureHeld := false
    recognitionActive := false }

/-- Fold a list of recognition events (result list plus arrival time)
through `onresult`. -/
def processEvents (s : ChatState) (evs : List (List SpeechSeg × Nat)) : ChatState :=
  evs.foldl (fun st e => onresult st e.1 e.2) s

/-- The message ids of the current conversation ([] when none). -/
def currentIds (s : ChatState) : List String :=
  ((s.currentConversation.map (fun c => c.messages)).getD []).map (fun m => m.id)

/-- The messages of the current conversation ([] when none). -/
def currentMsgs (s : ChatState) : List Message :=
  (s.currentConversation.map (fun c => c.messages)).getD []

/-- Messages in non-decreasing creation-timestamp order. -/
def sortedByTs (l : List Message) : Prop :=
  l.Pairwise (fun a b => a.timestamp ≤ b.timestamp)

/-- Most recent activity of a conversation: the latest message
timestamp, or the creation time if empty. -/
def lastActivity (c : Conversation) : Nat :=
  (c.messages.map (fun m => m.timestamp)).foldr max c.createdAt

/-- Modelled from the spec: the `listByRecency()` ordering contract —
conversations ordered most-recently-appended-to first, ties broken by
creation time descending.  There is no such function in the source;
the rendered `conversations` array is the listing, so this predicate
states the spec's ordering over that array for comparison. -/
def recencyOrderedB : List Conversation → Bool
  | [] => true
  | [_] => true
  | a :: b :: t =>
      (decide (lastActivity b < lastActivity a) ||
        (decide (lastActivity a = lastActivity b) && decide (b.createdAt ≤ a.createdAt))) &&
      recencyOrderedB (b :: t)

/-- An idle initial component state (all `useState` defaults of lines
158-166, in a recognition-capable browser). -/
def initState : ChatState :=
  { message := ""
    conversations := []
    currentConversation := none
    isListening := false
    isLoading := false
    showTextInput := false
    selectedImage := none
    supported := true
    recognitionActive := false
    captureHeld := false
    acquireCount := 0
    finalTranscript := ""
    silenceDeadline := none }

section Claims

/-- C7: attachment validation accepts an image of at most 5 MiB (in
particular exactly 5*1024*1024 bytes) and stages it; an image file
strictly larger than 5 MiB (in particular 5 MiB + 1 byte) is rejected
with `TooLarge`; a file whose content type is not in the `image/*`
category is rejected with `InvalidType`; every rejection surfaces the
error and returns the state unchanged (no image staged, no message
appended). -/
theorem c7_attachment_validation :
    (∀ (s : ChatState) (f : JsFile) (url : String),
      strStartsWith f.type "image/" = true → f.size ≤ 5 * 1024 * 1024 →
      handleImageSelect s (some f) (Except.ok url) =
        ({ s with selectedImage := some url, showTextInput := true }, none)) ∧
    (∀ (s : ChatState) (f : JsFile) (enc : Except Unit String),
      strStartsWith f.type "image/" = true → f.size > 5 * 1024 * 1024 →
      handleImageSelect s (some f) enc = (s, some AttachError.TooLarge)) ∧
    (∀ (s : ChatState) (f : JsFile) (enc : Except Unit String),
      strStartsWith f.type "image/" = false →
      handleImageSelect s (some f) enc = (s, some AttachError.InvalidType)) := by
  refine ⟨?_, ?_, ?_⟩
  · intro s f url h1 h2
    simp [handleImageSelect, h1, Nat.not_lt.mpr h2]
  · intro s f enc h1 h2
    simp [handleImageSelect, h1, h2]
  · intro s f enc h1
    simp [handleImageSelect, h1]

/-- Witness for C7: a png of exactly 5242880 bytes is accepted and
staged; one of 5242881 bytes is rejected `TooLarge`; a pdf is rejected
`InvalidType`; both rejections leave the state unchanged. -/
theorem c7_attachment_validation_witness :
    handleImageSelect initState (some { type := "image/png", size := 5242880 })
        (Except.ok "data:image") =
      ({ initState with selectedImage := some "data:image", showTextInput := true }, none) ∧
    handleImageSelect initState (some { type := "image/png", size := 5242881 })
        (Except.ok "data:image") =
      (initState, some AttachError.TooLarge) ∧
    handleImageSelect initState (some { type := "application/pdf", size := 4 })
        (Except.ok "data:app") =
      (initState, some AttachError.InvalidType) :=
  ⟨c7_attachment_validation.1 initState _ _ (by decide) (by decide),
   c7_attachment_validation.2.1 initState _ _ (by decide) (by decide),
   c7_attachment_validation.2.2 initState _ _ (by decide)⟩

/-- A state in the middle of a listening episode: capture held, an
armed silence watchdog, and a live transcript in the composer. -/
def listeningState : ChatState :=
  { initState with
    message := "hello"
    isListening := true
    recognitionActive := true
    captureHeld := true
    acquireCount := 1
    silenceDeadline := some 7000 }

/-- C4 counterexample: a manual `stopListening` leaves the Listening
state but does NOT clear the pending silence-watchdog timer —
`silenceDeadline` is untouched — contradicting the claim that the
timer is cleared whenever the session leaves Listening. -/
theorem c4_watchdog_survives_stop_cex :
    (stopListening listeningState).isListening = false ∧
    (stopListening listeningState).silenceDeadline = some 7000 := by
  constructor <;> decide

/-- C4 amended: every recognition event re-arms the watchdog to fire
5000 ms after the event, but leaving the Listening state does not
clear it: neither the manual `stopListening` nor the platform `onend`
handler touches the pending timer, so a manual stop leaves the
watchdog pending (it later fires a redundant `recognition.stop()`). -/
theorem c4_watchdog_amended (s : ChatState) (segs : List SpeechSeg) (now : Nat) :
    (onresult s segs now).silenceDeadline = some (now + 5000) ∧
    (stopListening s).silenceDeadline = s.silenceDeadline ∧
    (onend s).silenceDeadline = s.silenceDeadline := by
  refine ⟨rfl, ?_, rfl⟩
  unfold stopListening
  split <;> rfl

/-- C5 counterexample: calling `start()` again while already listening
is a complete no-op — the state (including the live transcript and the
ghost acquisition counter) is unchanged, so the first session is not
torn down and no fresh session begins (a fresh start would have reset
`message` to `""` and incremented `acquireCount`); this refutes the
"second call restarts cleanly" half of the claim, while confirming
that the CaptureResource is not acquired a second time. -/
theorem c5_no_restart_cex :
    startListening listeningState = listeningState ∧
    (startListening listeningState).message = "hello" ∧
    (startListening listeningState).acquireCount = 1 := by
  refine ⟨?_, ?_, ?_⟩ <;> decide

/-- C5 amended: a second `start()` without an intervening `stop()`
never acquires the CaptureResource a second time, because the
`if (!isListening)` guard makes the whole call a no-op: the first
session continues unchanged (no teardown, no restart). -/
theorem c5_second_start_noop (s : ChatState) (h : s.isListening = true) :
    startListening s = s := by
  unfold startListening
  split
  · rfl
  · simp [h]

/-- Witness for C5 amended: on a concrete listening state the second
`start()` changes nothing. -/
theorem c5_second_start_noop_witness :
    startListening { initState with isListening := true } =
      { initState with isListening := true } :=
  c5_second_start_noop { initState with isListening := true } rfl

end Claims

/-- Conversation A of the stale-reply scenario. -/
def convA : Conversation := { id := "1", title := "A", messages := [], createdAt := 0 }

/-- Conversation B of the stale-reply scenario. -/
def convB : Conversation := { id := "2", title := "B", messages := [], createdAt := 0 }

/-- State with A current and both conversations listed. -/
def c1Start : ChatState :=
  { initState with
    message := "hi"
    conversations := [convA, convB]
    currentConversation := some convA
    showTextInput := true }

/-- A successful `/api/chat` reply used in the scenarios. -/
def okResp : ChatResponse := { response := "ans", youtube := none, sources := none }

/-- The C1 scenario: a send is issued while conversation A is current,
the user switches to conversation B while the call is in flight, and
then the reply resolves. -/
def c1Final : ChatState :=
  match sendPhase1 c1Start none 100 with
  | (s1, some cap) => resolveSend (selectConversation s1 convB) cap (Except.ok okResp) 200
  | (s1, none) => s1

/-- C1 counterexample: the late reply is NOT discarded after the
switch to B — resolving it makes A (now carrying the user message and
the reply) the current conversation again and unshifts it to the front
of the store listing, whose entry for A grows from 0 to 2 messages. -/
theorem c1_late_reply_applied_cex :
    c1Final.currentConversation ≠ some convB ∧
    c1Final.conversations.map (fun c => (c.id, c.messages.length)) =
      [("1", 2), ("2", 0)] := by
  constructor <;> decide

/-- C1 amended: no in-flight transport call is tagged or discarded —
a success resolving after any conversation switch is applied
unconditionally: the captured originating conversation, with the
assistant reply appended, overwrites the current conversation and is
pushed to the front of the listing. -/
theorem c1_late_reply_applied (s : ChatState) (conversation : Conversation)
    (cap : SendCapture) (data : ChatResponse) (now : Nat) :
    (resolveSend (selectConversation s conversation) cap
        (Except.ok data) now).currentConversation =
      some { cap.updatedConversation with
             messages := cap.updatedConversation.messages ++ [mkBotMessage data now] } ∧
    (resolveSend (selectConversation s conversation) cap
        (Except.ok data) now).conversations.head? =
      some { cap.updatedConversation with
             messages := cap.updatedConversation.messages ++ [mkBotMessage data now] } :=
  ⟨rfl, rfl⟩

/-- C2 counterexample: with "hello " already finalized, an interim
segment "w" makes the live transcript "w" — the display is
`interimTranscript || finalTranscript`, not the concatenation
"hello w" of finalized segments with the in-progress segment, and it
shrank from "hello". -/
theorem c2_transcript_not_concat_cex :
    (onresult (onresult initState [{ isFinal := true, transcript := "hello " }] 0)
        [{ isFinal := false, transcript := "w" }] 100).message = "w" ∧
    (onresult initState [{ isFinal := true, transcript := "hello " }] 0).message =
      "hello" := by
  constructor <;> decide

/-- Interim-only events never touch the finalized-transcript
accumulator. -/
theorem processEvents_interim_keeps_finalTranscript (evs : List (List SpeechSeg × Nat))
    (s : ChatState) (h : ∀ e ∈ evs, ∀ seg ∈ e.1, seg.isFinal = false) :
    (processEvents s evs).finalTranscript = s.finalTranscript := by
  induction evs generalizing s with
  | nil => rfl
  | cons e t ih =>
    have he : ∀ seg ∈ e.1, seg.isFinal = false := h e (by simp)
    have hstep : (onresult s e.1 e.2).finalTranscript = s.finalTranscript := by
      have hfil : e.1.filter (fun r => r.isFinal) = [] :=
        List.filter_eq_nil_iff.mpr (by intro a ha; simp [he a ha])
      simp [onresult, hfil, String.join, String.append_empty]
    have hrec : processEvents s (e :: t) = processEvents (onresult s e.1 e.2) t := rfl
    rw [hrec, ih (onresult s e.1 e.2) (fun e2 h2 seg hseg => h e2 (by simp [h2]) seg hseg)]
    exact hstep

/-- C2 amended: the live transcript after an event is the event's
interim concatenation when non-empty, otherwise the accumulated final
concatenation, trimmed (not the concatenation of finals with the
interim — refuted above).  In particular, for a sequence of
interim-only events followed by one all-final event, the transcript
equals the trimmed concatenation of all finalized segments, however
many interim updates preceded finalization. -/
theorem c2_interim_then_final (s : ChatState) (evs : List (List SpeechSeg × Nat))
    (segs : List SpeechSeg) (now : Nat)
    (hs : s.finalTranscript = "")
    (hevs : ∀ e ∈ evs, ∀ seg ∈ e.1, seg.isFinal = false)
    (hf : ∀ seg ∈ segs, seg.isFinal = true)
    (hne : String.join (segs.map (fun r => r.transcript)) ≠ "") :
    (onresult (processEvents s evs) segs now).message =
      strTrim (String.join (segs.map (fun r => r.transcript))) := by
  have hacc : (processEvents s evs).finalTranscript = "" :=
    (processEvents_interim_keeps_finalTranscript evs s hevs).trans hs
  have hfil : segs.filter (fun r => r.isFinal) = segs :=
    List.filter_eq_self.mpr (by intro a ha; simp [hf a ha])
  have hint : segs.filter (fun r => !r.isFinal) = [] :=
    List.filter_eq_nil_iff.mpr (by intro a ha; simp [hf a ha])
  simp [onresult, hacc, hfil, hint, String.join, String.empty_append, hne]
  intro hx
  exact absurd hx hne

/-- Witness for C2 amended: one interim event "he" then a final event
"hello " yields the transcript "hello". -/
theorem c2_interim_then_final_witness :
    (onresult (processEvents initState [([{ isFinal := false, transcript := "he" }], 0)])
        [{ isFinal := true, transcript := "hello " }] 100).message = "hello" :=
  (c2_interim_then_final initState [([{ isFinal := false, transcript := "he" }], 0)]
      [{ isFinal := true, transcript := "hello " }] 100 rfl
      (by decide) (by decide) (by decide)).trans (by decide)

/-- C3: a send whose transport call fails (network fault or non-ok
response) leaves the target conversation holding exactly one new
message — the optimistic user message, which is retained rather than
rolled back — and zero new assistant messages: the current
conversation is the pre-send conversation with precisely the user
message appended. -/
theorem c3_transport_failure_keeps_user_message (s : ChatState) (mt : Option String)
    (now : Nat)
    (h : ¬ (strTrim (textToSendOf mt s) = "" ∧ s.selectedImage = none)) :
    (fullSendFail s mt now).currentConversation =
      some { origConvOf s (textToSendOf mt s) now with
             messages := (origConvOf s (textToSendOf mt s) now).messages ++
               [mkUserMessage (textToSendOf mt s) s.selectedImage now] } ∧
    (mkUserMessage (textToSendOf mt s) s.selectedImage now).isUser = true := by
  refine ⟨?_, rfl⟩
  simp only [fullSendFail, sendPhase1]
  rw [if_neg h]
  rfl

/-- Witness for C3: a failed send of "hi" from a fresh session leaves
one user message "hi" and nothing else in the target conversation. -/
theorem c3_transport_failure_witness :
    (fullSendFail { initState with message := "hi" } none 7).currentConversation =
      some { id := "7", title := "hi", messages := [mkUserMessage "hi" none 7],
             createdAt := 7 } ∧
    (mkUserMessage "hi" none 7).isUser = true := by
  exact c3_transport_failure_keeps_user_message { initState with message := "hi" }
    none 7 (by decide)

/-- C10: a failed send leaves the recency-ordered conversation
collection untouched — the optimistic phase never writes the listing
and the failure handler only clears the loading flag — so a
conversation lazily created by the failed send (fresh id not yet in
the listing) exists only as the current conversation and is absent
from the listing. -/
theorem c10_failure_frame (s : ChatState) (mt : Option String) (now : Nat) :
    (sendPhase1 s mt now).1.conversations = s.conversations ∧
    (fullSendFail s mt now).conversations = s.conversations ∧
    (s.currentConversation = none →
      toString now ∉ s.conversations.map (fun c => c.id) →
      ∀ c, (fullSendFail s mt now).currentConversation = some c →
        c.id ∉ (fullSendFail s mt now).conversations.map (fun c2 => c2.id)) := by
  by_cases hg : strTrim (textToSendOf mt s) = "" ∧ s.selectedImage = none
  · refine ⟨?_, ?_, ?_⟩
    · simp [sendPhase1, hg]
    · simp [fullSendFail, sendPhase1, hg]
    · intro hnone hfresh c hc
      simp [fullSendFail, sendPhase1, hg, hnone] at hc
  · refine ⟨?_, ?_, ?_⟩
    · simp [sendPhase1, hg]
    · simp [fullSendFail, sendPhase1, resolveSend, hg]
    · intro hnone hfresh c hc
      simp only [fullSendFail, sendPhase1] at hc ⊢
      rw [if_neg hg] at hc ⊢
      simp only [resolveSend, Option.some.injEq] at hc
      simp only [resolveSend]
      subst hc
      simpa [origConvOf, hnone, freshConv] using hfresh

/-- Witness for C10: a fresh-session send of "hi" that fails leaves
the (empty) listing empty, with the lazily created conversation "42"
only current, not listed. -/
theorem c10_failure_frame_witness :
    (fullSendFail { initState with message := "hi" } none 42).conversations = [] ∧
    "42" ∉ (fullSendFail { initState with message := "hi" } none 42).conversations.map
      (fun c2 => c2.id) := by
  refine ⟨(c10_failure_frame { initState with message := "hi" } none 42).2.1.trans rfl, ?_⟩
  exact (c10_failure_frame { initState with message := "hi" } none 42).2.2 rfl
    (by decide)
    { id := "42", title := "hi", messages := [mkUserMessage "hi" none 42], createdAt := 42 }
    (by decide)

/-- The C6 scenario: two complete sends whose clock readings all fall
in the same millisecond (5). -/
def c6Final : ChatState :=
  fullSendOk (fullSendOk { initState with message := "hi" } none 5 5 okResp)
    (some "yo") 5 5 okResp

/-- C6 counterexample: two sends completing within the same
millisecond produce the message ids "5","6","5","6" inside one
conversation — ids derived from `Date.now()` are not unique. -/
theorem c6_duplicate_ids_cex :
    currentIds c6Final = ["5", "6", "5", "6"] ∧ ¬ (currentIds c6Final).Nodup := by
  constructor <;> decide

/-- C6 amended: message order by non-decreasing creation timestamp is
preserved by every successful send whose clock readings are consistent
(existing messages no later than the send instant, resolution no
earlier), but id uniqueness fails: ids are the millisecond clock
rendered in decimal (plus one for the assistant), so sends in the same
millisecond collide (see the counterexample). -/
theorem c6_sorted_amended (s : ChatState) (mt : Option String) (now resolveAt : Nat)
    (data : ChatResponse)
    (h1 : sortedByTs (origConvOf s (textToSendOf mt s) now).messages)
    (h2 : ∀ m ∈ (origConvOf s (textToSendOf mt s) now).messages, m.timestamp ≤ now)
    (h3 : now ≤ resolveAt) :
    sortedByTs (currentMsgs (fullSendOk s mt now resolveAt data)) := by
  by_cases hg : strTrim (textToSendOf mt s) = "" ∧ s.selectedImage = none
  · cases hcur : s.currentConversation with
    | none =>
      simp [fullSendOk, sendPhase1, hg, currentMsgs, hcur, sortedByTs]
    | some c =>
      have he : origConvOf s (textToSendOf mt s) now = c := by
        simp [origConvOf, hcur]
      simp only [fullSendOk, sendPhase1]
      rw [if_pos hg]
      rw [he] at h1
      simpa [currentMsgs, hcur] using h1
  · simp only [fullSendOk, sendPhase1]
    rw [if_neg hg]
    simp only [resolveSend, currentMsgs, Option.map_some', Option.getD_some]
    unfold sortedByTs at h1 ⊢
    rw [List.append_assoc, List.pairwise_append]
    refine ⟨h1, ?_, ?_⟩
    · simp [mkUserMessage, mkBotMessage, h3]
    · intro a ha b hb
      have hta := h2 a ha
      simp only [List.mem_append, List.mem_singleton] at hb
      rcases hb with hb | hb <;> subst hb <;>
        simp [mkUserMessage, mkBotMessage] <;> omega

/-- Witness for C6 amended: a fresh-session send at clock 3 resolving
at 4 yields timestamp-sorted messages. -/
theorem c6_sorted_amended_witness :
    sortedByTs (currentMsgs (fullSendOk { initState with message := "hi" } none 3 4 okResp)) :=
  c6_sorted_amended { initState with message := "hi" } none 3 4 okResp
    (by unfold sortedByTs; decide) (by decide) (by decide)

/-- Older conversation A (created at 10) of the tie-break scenario. -/
def cA : Conversation := { id := "1", title := "A", messages := [], createdAt := 10 }

/-- Newer conversation B (created at 20) of the tie-break scenario. -/
def cB : Conversation := { id := "2", title := "B", messages := [], createdAt := 20 }

/-- The C8 scenario: a send into B and then a send into A, both
resolving in the same millisecond (30). -/
def c8Final : ChatState :=
  fullSendOk
    (selectConversation
      (fullSendOk (selectConversation { initState with conversations := [cA, cB] } cB)
        (some "q1") 30 30 okResp)
      cA)
    (some "q2") 30 30 okResp

/-- C8 counterexample: after appending to B and then to A within the
same millisecond, the listing is [A, B] — both have last activity 30,
and A (created at 10) precedes B (created at 20), so the tie is NOT
broken by creation time descending; the order is operation order
(most recently appended-to first by unshift), refuting the tie rule. -/
theorem c8_tiebreak_cex :
    c8Final.conversations.map (fun c => (c.id, lastActivity c, c.createdAt)) =
      [("1", 30, 10), ("2", 30, 20)] ∧
    recencyOrderedB c8Final.conversations = false := by
  constructor <;> decide

/-- C8 amended: after every successful append the target conversation
is placed first in the listing and appears there exactly once (the
previous entry with its id is filtered out before the unshift); ties
among equally recent conversations follow operation order, not
creation time descending (see the counterexample). -/
theorem c8_front_no_dup (s : ChatState) (cap : SendCapture) (data : ChatResponse)
    (now : Nat) (h : cap.updatedConversation.id = cap.convId) :
    ((resolveSend s cap (Except.ok data) now).conversations.head?.map (fun c => c.id)) =
      some cap.convId ∧
    ((resolveSend s cap (Except.ok data) now).conversations.map (fun c => c.id)).count
      cap.convId = 1 := by
  constructor
  · simp [resolveSend, h]
  · simp only [resolveSend, List.map_cons]
    rw [List.count_cons]
    have hz : (((cap.capturedConversations.filter
        (fun c => decide (c.id ≠ cap.convId))).map (fun c => c.id)).count cap.convId) = 0 := by
      rw [List.count_eq_zero]
      intro hmem
      rcases List.mem_map.mp hmem with ⟨c, hcf, hcid⟩
      have hne := (List.mem_filter.mp hcf).2
      simp only [decide_eq_true_eq] at hne
      exact hne hcid
    rw [hz]
    simp [h]

/-- Witness for C8 amended: resolving a send into conversation "1"
with the listing [A, B] captured puts "1" first and exactly once. -/
def c8Cap : SendCapture :=
  { textToSend := "q"
    convId := "1"
    updatedConversation := { cA with messages := [mkUserMessage "q" none 30] }
    capturedConversations := [cA, cB] }

theorem c8_front_no_dup_witness :
    (((resolveSend initState c8Cap (Except.ok okResp) 30).conversations.head?.map
        (fun c => c.id)) = some "1") ∧
    (((resolveSend initState c8Cap (Except.ok okResp) 30).conversations.map
        (fun c => c.id)).count "1" = 1) :=
  c8_front_no_dup initState c8Cap okResp 30 rfl

/-- The title expression of line 483 agrees with its spec reading:
placeholder exactly for empty text, ellipsis exactly beyond 50
characters. -/
theorem mkTitle_eq (t : String) :
    mkTitle t = if t = "" then "Image message"
      else strTake t 50 ++ (if t.length > 50 then "..." else "") := by
  by_cases ht : t = ""
  · subst ht; decide
  · rw [if_neg ht]
    unfold mkTitle
    rw [if_neg ?hne]
    case hne =>
      intro hb
      have hdata : (strTake t 50).data ++
          (if t.length > 50 then "..." else "").data = [] := by
        have hc := congrArg String.data hb
        rwa [String.data_append] at hc
      have h50 : t.data.take 50 = [] := (List.append_eq_nil.mp hdata).1
      rcases List.take_eq_nil_iff.mp h50 with h0 | hnil
      · exact absurd h0 (by decide)
      · exact ht (String.ext_iff.mpr (by simp [hnil]))

/-- C9: on the first sent turn of a session with no conversation
selected, the lazily created conversation's title equals the message
text truncated to 50 characters with "..." appended exactly when the
text exceeds 50 characters, and equals the placeholder "Image message"
exactly when the turn carries no text (image-only). -/
theorem c9_lazy_title (s : ChatState) (now : Nat)
    (h0 : s.currentConversation = none)
    (h : ¬ (strTrim s.message = "" ∧ s.selectedImage = none)) :
    ((sendPhase1 s none now).1.currentConversation.map (fun c => c.title)) =
      some (if s.message = "" then "Image message"
            else strTake s.message 50 ++ (if s.message.length > 50 then "..." else "")) := by
  simp only [sendPhase1, textToSendOf]
  rw [if_neg h]
  simp [origConvOf, h0, freshConv, mkTitle_eq]

/-- Witness for C9: an image-only first turn (empty text) yields the
placeholder title. -/
theorem c9_lazy_title_witness :
    ((sendPhase1 { initState with selectedImage := some "img" } none 9).1.currentConversation.map
        (fun c => c.title)) = some "Image message" := by
  have h := c9_lazy_title { initState with selectedImage := some "img" } 9 rfl (by decide)
  simpa using h
